import Mathlib

/-!
Shallow embedding of the simulation core of `src/main.js` (a Flappy-Bird style
game).  Numbers that are IEEE doubles in JavaScript are modelled as rationals
(`ℚ`); every comparison in the source is a strict or non-strict inequality on
values produced by `+ - *`, so the rational model is exact on the inputs we
evaluate.  The two sources of nondeterminism / transcendental arithmetic are
passed in as oracle inputs:

* `r` stands for the value of `Math.random()` consumed by `spawnPipe`
  (a real in `[0, 1)`);
* `hover` stands for the value of `Math.sin(gameTime * 3)` consumed by the
  `STATE_READY` branch of `updateGame` (a real in `[-1, 1]`).

Purely cosmetic state that no simulation decision reads — `bird.rotation`
(the spec calls orientation "cosmetic-only"), `bird.wingPhase`, `groundOffset`,
the VFX / particle / star / building / sparkle / orb records, and all `Audio.*`
calls — is omitted from the state; the clock (`updateTiming`) and the
localStorage persistence of the high score are likewise external to the
claims and are not modelled.  Everything else follows the JavaScript line by
line; comments cite the line numbers of `src/main.js`.
-/

/-! ### Game constants (src/main.js lines 12-79) -/

def LOGICAL_W : ℚ := 400
def LOGICAL_H : ℚ := 712
def GROUND_H : ℚ := 112
def GROUND_Y : ℚ := LOGICAL_H - GROUND_H
def GRAVITY : ℚ := 1800
def JUMP_VELOCITY : ℚ := -420
def MAX_FALL_SPEED : ℚ := 650
def PIPE_W : ℚ := 72
def PIPE_GAP : ℚ := 160
def PIPE_SPEED : ℚ := 160
def PIPE_SPAWN_INTERVAL : ℚ := 8 / 5
def PIPE_POOL_SIZE : ℕ := 8
def BIRD_W : ℚ := 40
def BIRD_H : ℚ := 30

/-! ### Data model -/

/-- Simulation-relevant fields of the `bird` record (line 433); `x` is fixed at
80 during play, `y` and `vy` mutate every tick. -/
structure Bird where
  x : ℚ
  y : ℚ
  vy : ℚ
deriving DecidableEq, Repr

/-- One slot of the `pipes` pool (line 444): `{ x, gapY, active, scored }`. -/
structure Pipe where
  x : ℚ
  gapY : ℚ
  active : Bool
  scored : Bool
deriving DecidableEq, Repr

/-- Game phases (lines 411-415): `STATE_READY`, `STATE_PLAYING`,
`STATE_FALLING`, `STATE_GAMEOVER`, `STATE_PAUSED`. -/
inductive GState where
  | ready
  | playing
  | falling
  | gameover
  | paused
deriving DecidableEq, Repr

/-- Result of `checkCollision` (lines 618-657): the strings `"ground"` and
`"pipe"`; `Option.none` models the `null` return. -/
inductive Outcome where
  | ground
  | pipe
deriving DecidableEq, Repr

/-- Aggregate of the mutable simulation globals: `currentState`, `stateTime`
(lines 417-418), `score` (line 428), `bird`, `pipes`, `pipeTimer` (line 447),
`ScoreSystem.highScore` / `ScoreSystem.isNewHighScore` (lines 368-369) and
`inputLockUntil` (line 810, in milliseconds of `performance.now()`). -/
structure GameState where
  state : GState
  stateTime : ℚ
  score : ℕ
  bird : Bird
  pipes : List Pipe
  pipeTimer : ℚ
  highScore : ℕ
  isNewHighScore : Bool
  inputLockUntil : ℚ
deriving DecidableEq, Repr

/-! ### Scoring persistence (src/main.js lines 385-393) -/

/-- Model of `ScoreSystem.check(score)` applied to the game state: if
`score > highScore` it records the new high score, sets `isNewHighScore` and
returns `true`; otherwise it changes nothing and returns `false`.  The
`localStorage` save is external. -/
def scoreCheckState (g : GameState) : GameState × Bool :=
  if g.score > g.highScore then
    ({ g with highScore := g.score, isNewHighScore := true }, true)
  else (g, false)

/-! ### Game logic (src/main.js lines 578-657) -/

/-- Model of `resetGame()` (lines 578-596): zeroes the score and the spawn
timer, re-seats the bird, deactivates and un-scores every pool slot, and
clears the `isNewHighScore` flag (`ScoreSystem.reset`).  It does not touch
`currentState`; `handleInput` performs the transition separately. -/
def resetGame (g : GameState) : GameState :=
  { g with
    score := 0
    pipeTimer := 0
    bird := { x := 80, y := 280, vy := 0 }
    pipes := g.pipes.map fun p => { p with active := false, scored := false }
    isNewHighScore := false }

/-- Model of `spawnPipe()` (lines 604-616): scan the pool in index order for
the first inactive slot; if one exists, re-seat it at `x = LOGICAL_W + 20`
with `gapY = minGapY + r * (maxGapY - minGapY)` (where `r` is the
`Math.random()` draw), activate it and clear `scored`; if every slot is
active the function returns without touching anything. -/
def spawnPipe (r : ℚ) : List Pipe → List Pipe
  | [] => []
  | p :: rest =>
    if p.active then p :: spawnPipe r rest
    else
      { x := LOGICAL_W + 20
        gapY := (100 + PIPE_GAP / 2) + r * ((GROUND_Y - 80 - PIPE_GAP / 2) - (100 + PIPE_GAP / 2))
        active := true
        scored := false } :: rest

/-- Physics integration of the bird, the common body of lines 730-732 and
786-788: `vy += GRAVITY * dt; if (vy > MAX_FALL_SPEED) vy = MAX_FALL_SPEED;
y += vy * dt` (the position update uses the already-clamped velocity). -/
def integrate (dt : ℚ) (b : Bird) : Bird :=
  let vy1 := b.vy + GRAVITY * dt
  let vy2 := if vy1 > MAX_FALL_SPEED then MAX_FALL_SPEED else vy1
  { b with vy := vy2, y := b.y + vy2 * dt }

/-- Spawn cadence (lines 742-746): `pipeTimer += dt; if (pipeTimer >=
PIPE_SPAWN_INTERVAL) { pipeTimer -= PIPE_SPAWN_INTERVAL; spawnPipe(); }`.
Returns the new timer and the (possibly extended-by-spawn) pool. -/
def spawnStep (dt r timer : ℚ) (ps : List Pipe) : ℚ × List Pipe :=
  if timer + dt ≥ PIPE_SPAWN_INTERVAL then
    (timer + dt - PIPE_SPAWN_INTERVAL, spawnPipe r ps)
  else (timer + dt, ps)

/-- Pipe advance (line 753): `p.x -= PIPE_SPEED * dt`. -/
def movePipe (dt : ℚ) (p : Pipe) : Pipe :=
  { p with x := p.x - PIPE_SPEED * dt }

/-- Scoring gate (lines 756-760): `if (!p.scored && p.x + PIPE_W < bird.x)
{ p.scored = true; score++; }`.  This is the collision-rule side effect the
spec calls idempotent: on an already-`scored` pipe it changes nothing. -/
def scoreGate (birdX : ℚ) (p : Pipe) (sc : ℕ) : Pipe × ℕ :=
  if p.scored = false ∧ p.x + PIPE_W < birdX then ({ p with scored := true }, sc + 1)
  else (p, sc)

/-- Off-screen reclaim (lines 763-765): `if (p.x + PIPE_W < -10) p.active =
false`. -/
def despawnGate (p : Pipe) : Pipe :=
  if p.x + PIPE_W < -10 then { p with active := false } else p

/-- Per-slot body of the pipe-update loop (lines 749-766): inactive slots are
skipped; an active slot is advanced, then score-checked, then
reclaim-checked (both checks read the already-advanced `x`). -/
def updatePipe (dt birdX : ℚ) (p : Pipe) (sc : ℕ) : Pipe × ℕ :=
  if p.active = false then (p, sc)
  else
    let r := scoreGate birdX (movePipe dt p) sc
    (despawnGate r.1, r.2)

/-- The pipe-update loop over the whole pool in index order, threading the
score accumulator through the slots. -/
def updatePipes (dt birdX : ℚ) : List Pipe → ℕ → List Pipe × ℕ
  | [], sc => ([], sc)
  | p :: rest, sc =>
    let r := updatePipe dt birdX p sc
    let rr := updatePipes dt birdX rest r.2
    (r.1 :: rr.1, rr.2)

/-- Pipe-rectangle intersection test for one slot, the loop body of lines
638-654, with the fairness-shrunk bird hitbox of lines 632-636 inlined
(`bx = bird.x - BIRD_W/2 + 4`, `by = bird.y - BIRD_H/2 + 4`,
`bw = BIRD_W - 8`, `bh = BIRD_H - 8`).  Holds when the slot is active, the
horizontal spans overlap and the bird box pokes into the top or bottom
segment. -/
def pipeHit (b : Bird) (p : Pipe) : Prop :=
  p.active = true ∧
  b.x - BIRD_W / 2 + 4 < p.x + PIPE_W ∧
  b.x - BIRD_W / 2 + 4 + (BIRD_W - 4 * 2) > p.x ∧
  (b.y - BIRD_H / 2 + 4 < p.gapY - PIPE_GAP / 2 ∨
    b.y - BIRD_H / 2 + 4 + (BIRD_H - 4 * 2) > p.gapY + PIPE_GAP / 2)

instance (b : Bird) (p : Pipe) : Decidable (pipeHit b p) := by
  unfold pipeHit
  infer_instance

/-- The pipe loop of lines 638-654: scan in index order, `return "pipe"` at
the first hit (the early return mutates nothing, so the scan is a pure
disjunction over the slots). -/
def anyPipeHit (b : Bird) : List Pipe → Bool
  | [] => false
  | p :: rest => if pipeHit b p then true else anyPipeHit b rest

/-- Model of `checkCollision()` (lines 618-657).  Ground first: if
`bird.y + BIRD_H/2 >= GROUND_Y` the bird is clamped onto the ground and the
outcome is `ground`.  Otherwise the ceiling rule: if `bird.y - BIRD_H/2 < 0`
the bird is clamped to the ceiling and `vy` is set to `0` (unconditionally —
whatever its sign).  Then the pipe loop.  The bird mutations of the source
are returned as the first component. -/
def checkCollision (b : Bird) (ps : List Pipe) : Bird × Option Outcome :=
  if b.y + BIRD_H / 2 ≥ GROUND_Y then
    ({ b with y := GROUND_Y - BIRD_H / 2 }, some Outcome.ground)
  else
    let b1 := if b.y - BIRD_H / 2 < 0 then { b with y := BIRD_H / 2, vy := 0 } else b
    if anyPipeHit b1 ps then (b1, some Outcome.pipe) else (b1, none)

/-! ### The per-tick update (src/main.js lines 659-805) -/

/-- Pool and score after the spawn-cadence and pipe-update passes of one
`STATE_PLAYING` tick (lines 742-766), evaluated — as in the source — after
the bird has been integrated (scoring reads `bird.x`, which integration
leaves unchanged). -/
def tickPipes (dt r : ℚ) (g : GameState) : List Pipe × ℕ :=
  updatePipes dt (integrate dt g.bird).x (spawnStep dt r g.pipeTimer g.pipes).2 g.score

/-- Collision evaluation of one `STATE_PLAYING` tick (line 769): the rule runs
on the integrated bird against the already-advanced pool. -/
def tickCollision (dt r : ℚ) (g : GameState) : Bird × Option Outcome :=
  checkCollision (integrate dt g.bird) (tickPipes dt r g).1

/-- The `STATE_PLAYING` branch of `updateGame` (lines 728-782): integrate the
bird, run the spawn cadence, advance/score/reclaim every pipe, then evaluate
the collision rule; a `pipe` outcome moves to `falling`, a `ground` outcome
runs `ScoreSystem.check` and moves to `gameover`, otherwise the phase stays
`playing`.  (`setState` zeroes `stateTime`, lines 420-423.) -/
def playingStep (dt r : ℚ) (g : GameState) : GameState :=
  let g1 := { g with
    bird := (tickCollision dt r g).1
    pipes := (tickPipes dt r g).1
    pipeTimer := (spawnStep dt r g.pipeTimer g.pipes).1
    score := (tickPipes dt r g).2 }
  match (tickCollision dt r g).2 with
  | some Outcome.pipe => { g1 with state := GState.falling, stateTime := 0 }
  | some Outcome.ground =>
    { (scoreCheckState g1).1 with state := GState.gameover, stateTime := 0 }
  | none => g1

/-- The `STATE_FALLING` branch of `updateGame` (lines 784-800): the bird keeps
integrating under gravity; when it reaches the ground it is clamped there,
`ScoreSystem.check` runs and the phase becomes `gameover`.  Pipes are not
touched in this branch. -/
def fallingStep (dt : ℚ) (g : GameState) : GameState :=
  let b1 := integrate dt g.bird
  if b1.y + BIRD_H / 2 ≥ GROUND_Y then
    let g1 := { g with bird := { b1 with y := GROUND_Y - BIRD_H / 2 } }
    { (scoreCheckState g1).1 with state := GState.gameover, stateTime := 0 }
  else { g with bird := b1 }

/-- Model of `updateGame()` (lines 659-805) restricted to simulation state.
`r` is the `Math.random()` oracle for a spawn, `hover` the `Math.sin(gameTime
* 3)` oracle for the `ready` hover (line 724: `bird.y = 280 + sin(...) * 12`).
The `gameover` branch accumulates `stateTime` (line 803); the `paused` branch
does nothing to simulation state. -/
def updateGame (dt r hover : ℚ) (g : GameState) : GameState :=
  match g.state with
  | GState.ready => { g with bird := { g.bird with y := 280 + hover * 12 } }
  | GState.playing => playingStep dt r g
  | GState.falling => fallingStep dt g
  | GState.gameover => { g with stateTime := g.stateTime + dt }
  | GState.paused => g

/-! ### Input (src/main.js lines 810-833) -/

/-- Model of `handleInput()` with `now = performance.now()` passed explicitly.
Before anything else: `if (now < inputLockUntil) return;`.  Then by phase:
`ready` starts play and flaps (lock `now + 100`); `playing` flaps (`flap()`
line 598 sets `vy = JUMP_VELOCITY`); `gameover` restarts only when
`stateTime > 0.5` (lock `now + 300`); `paused` resumes; `falling` matches no
branch and is a no-op. -/
def handleInput (now : ℚ) (g : GameState) : GameState :=
  if now < g.inputLockUntil then g
  else
    match g.state with
    | GState.ready =>
      { g with
        state := GState.playing
        stateTime := 0
        bird := { g.bird with vy := JUMP_VELOCITY }
        inputLockUntil := now + 100 }
    | GState.playing => { g with bird := { g.bird with vy := JUMP_VELOCITY } }
    | GState.falling => g
    | GState.gameover =>
      if g.stateTime > 1 / 2 then
        { resetGame g with
          state := GState.ready
          stateTime := 0
          inputLockUntil := now + 300 }
      else g
    | GState.paused => { g with state := GState.playing, stateTime := 0 }

/-- Number of active slots in a pool. -/
def countActive (ps : List Pipe) : ℕ := (ps.filter fun p => p.active).length

/-- Run a sequence of ticks; each list entry carries the `(dt, r, hover)`
inputs of one frame. -/
def runTicks : List (ℚ × ℚ × ℚ) → GameState → GameState
  | [], g => g
  | t :: ts, g => runTicks ts (updateGame t.1 t.2.1 t.2.2 g)

/-! ### Concrete states used by witnesses and counterexamples -/

/-- An inactive pool slot, as created at line 444. -/
def inactiveSlot : Pipe := { x := 0, gapY := 0, active := false, scored := false }

/-- Freshly reset game state: the state after `init()` / `resetGame()`. -/
def g0 : GameState :=
  { state := GState.ready
    stateTime := 0
    score := 0
    bird := { x := 80, y := 280, vy := 0 }
    pipes := List.replicate 8 inactiveSlot
    pipeTimer := 0
    highScore := 0
    isNewHighScore := false
    inputLockUntil := 0 }

/-- Mid-flight playing state with an empty pool. -/
def gPlay : GameState :=
  { g0 with state := GState.playing, bird := { x := 80, y := 300, vy := 0 } }

/-- Playing state about to hit the ground while an unscored pipe's trailing
edge passes the bird's x on the same tick. -/
def gC2 : GameState :=
  { g0 with
    state := GState.playing
    bird := { x := 80, y := 590, vy := 650 }
    pipes := { x := 5, gapY := 300, active := true, scored := false } :: List.replicate 7 inactiveSlot }

/-- Playing state whose next tick's collision rule returns `pipe`: the slot
overlaps the bird's x-range and the bird sits below the gap. -/
def gPipeHit : GameState :=
  { g0 with
    state := GState.playing
    bird := { x := 80, y := 300, vy := 0 }
    pipes := { x := 80, gapY := 180, active := true, scored := false } :: List.replicate 7 inactiveSlot }

/-- Falling state high above the ground, with one active pipe in the pool. -/
def gFall : GameState :=
  { g0 with
    state := GState.falling
    bird := { x := 80, y := 300, vy := 0 }
    pipes := { x := 200, gapY := 300, active := true, scored := false } :: List.replicate 7 inactiveSlot }

/-- Falling state one tick away from ground contact. -/
def gFall2 : GameState :=
  { g0 with state := GState.falling, bird := { x := 80, y := 590, vy := 0 } }

/-- Game-over state whose dwell time is exactly the restart threshold. -/
def gC4 : GameState :=
  { g0 with state := GState.gameover, stateTime := 1 / 2, score := 3 }

/-- Game-over state whose dwell time is past the restart threshold. -/
def gC4b : GameState :=
  { g0 with state := GState.gameover, stateTime := 1, score := 3 }

/-- Ready state with a pending input lock. -/
def gLock : GameState := { g0 with inputLockUntil := 100 }

/-- Pool of eight active slots (no slot free). -/
def fullPool : List Pipe := List.replicate 8 { x := 100, gapY := 300, active := true, scored := false }

/-- Bird above the top boundary while moving downward (inward). -/
def birdC8 : Bird := { x := 80, y := 5, vy := 30 }

/-! ### Helper lemmas -/

theorem integrate_vy (dt : ℚ) (b : Bird) :
    (integrate dt b).vy = min (b.vy + GRAVITY * dt) MAX_FALL_SPEED := by
  unfold integrate
  dsimp only
  rcases le_or_lt (b.vy + GRAVITY * dt) MAX_FALL_SPEED with h | h
  · rw [if_neg (not_lt.mpr h), min_eq_left h]
  · rw [if_pos h, min_eq_right h.le]

theorem integrate_vy_le (dt : ℚ) (b : Bird) : (integrate dt b).vy ≤ MAX_FALL_SPEED := by
  rw [integrate_vy]
  exact min_le_right _ _

theorem integrate_y (dt : ℚ) (b : Bird) :
    (integrate dt b).y = b.y + (integrate dt b).vy * dt := rfl

theorem integrate_x (dt : ℚ) (b : Bird) : (integrate dt b).x = b.x := rfl

theorem checkCollision_fst (b : Bird) (ps : List Pipe) :
    (checkCollision b ps).1 =
      if b.y + BIRD_H / 2 ≥ GROUND_Y then { b with y := GROUND_Y - BIRD_H / 2 }
      else if b.y - BIRD_H / 2 < 0 then { b with y := BIRD_H / 2, vy := 0 } else b := by
  unfold checkCollision
  split
  · rfl
  · dsimp only
    split <;> split <;> rfl

theorem checkCollision_vy (b : Bird) (ps : List Pipe) :
    (checkCollision b ps).1.vy = b.vy ∨ (checkCollision b ps).1.vy = 0 := by
  rw [checkCollision_fst]
  split
  · exact Or.inl rfl
  · split
    · exact Or.inr rfl
    · exact Or.inl rfl

theorem checkCollision_y_nonneg (b : Bird) (ps : List Pipe) :
    0 ≤ (checkCollision b ps).1.y := by
  rw [checkCollision_fst]
  split
  · norm_num [GROUND_Y, LOGICAL_H, GROUND_H, BIRD_H]
  · split
    · norm_num [BIRD_H]
    · rename_i h1 h2
      rw [not_lt] at h2
      have : (0 : ℚ) ≤ BIRD_H / 2 := by norm_num [BIRD_H]
      linarith

theorem scoreCheckState_score (g : GameState) : (scoreCheckState g).1.score = g.score := by
  unfold scoreCheckState
  split <;> rfl

theorem scoreCheckState_state (g : GameState) : (scoreCheckState g).1.state = g.state := by
  unfold scoreCheckState
  split <;> rfl

theorem scoreCheckState_pipes (g : GameState) : (scoreCheckState g).1.pipes = g.pipes := by
  unfold scoreCheckState
  split <;> rfl

theorem scoreCheckState_bird (g : GameState) : (scoreCheckState g).1.bird = g.bird := by
  unfold scoreCheckState
  split <;> rfl

theorem scoreCheckState_highScore_mono (g : GameState) :
    g.highScore ≤ (scoreCheckState g).1.highScore := by
  unfold scoreCheckState
  split
  · rename_i h
    exact le_of_lt h
  · exact le_refl _

theorem scoreGate_score_le (bx : ℚ) (p : Pipe) (sc : ℕ) : sc ≤ (scoreGate bx p sc).2 := by
  unfold scoreGate
  split
  · exact Nat.le_succ sc
  · exact le_refl sc

theorem updatePipe_score_le (dt bx : ℚ) (p : Pipe) (sc : ℕ) :
    sc ≤ (updatePipe dt bx p sc).2 := by
  unfold updatePipe
  split
  · exact le_refl sc
  · exact scoreGate_score_le bx (movePipe dt p) sc

theorem updatePipes_score_le (dt bx : ℚ) (ps : List Pipe) (sc : ℕ) :
    sc ≤ (updatePipes dt bx ps sc).2 := by
  induction ps generalizing sc with
  | nil => exact le_refl sc
  | cons p rest ih =>
    simp only [updatePipes]
    exact le_trans (updatePipe_score_le dt bx p sc) (ih ((updatePipe dt bx p sc).2))

theorem updatePipes_length (dt bx : ℚ) (ps : List Pipe) (sc : ℕ) :
    (updatePipes dt bx ps sc).1.length = ps.length := by
  induction ps generalizing sc with
  | nil => rfl
  | cons p rest ih =>
    simp only [updatePipes, List.length_cons, ih]

theorem spawnPipe_length (rv : ℚ) (ps : List Pipe) :
    (spawnPipe rv ps).length = ps.length := by
  induction ps with
  | nil => rfl
  | cons p rest ih =>
    unfold spawnPipe
    split
    · simp only [List.length_cons, ih]
    · simp only [List.length_cons]

theorem spawnPipe_all_active (rv : ℚ) (ps : List Pipe)
    (h : ∀ p ∈ ps, p.active = true) : spawnPipe rv ps = ps := by
  induction ps with
  | nil => rfl
  | cons p rest ih =>
    unfold spawnPipe
    rw [if_pos (h p (List.mem_cons_self p rest))]
    rw [ih fun q hq => h q (List.mem_cons_of_mem p hq)]

theorem spawnPipe_mem (rv : ℚ) (ps : List Pipe) (q : Pipe) (hq : q ∈ spawnPipe rv ps) :
    q ∈ ps ∨
      q = { x := LOGICAL_W + 20
            gapY := (100 + PIPE_GAP / 2) +
              rv * ((GROUND_Y - 80 - PIPE_GAP / 2) - (100 + PIPE_GAP / 2))
            active := true
            scored := false } := by
  induction ps with
  | nil => exact absurd hq (List.not_mem_nil q)
  | cons p rest ih =>
    unfold spawnPipe at hq
    by_cases hp : p.active = true
    · rw [if_pos hp] at hq
      rcases List.mem_cons.mp hq with h | h
      · exact Or.inl (h ▸ List.mem_cons_self p rest)
      · rcases ih h with h2 | h2
        · exact Or.inl (List.mem_cons_of_mem p h2)
        · exact Or.inr h2
    · rw [if_neg hp] at hq
      rcases List.mem_cons.mp hq with h | h
      · exact Or.inr h
      · exact Or.inl (List.mem_cons_of_mem p h)

theorem spawnStep_length (dt rv timer : ℚ) (ps : List Pipe) :
    (spawnStep dt rv timer ps).2.length = ps.length := by
  unfold spawnStep
  split
  · exact spawnPipe_length rv ps
  · rfl

theorem tickPipes_length (dt rv : ℚ) (g : GameState) :
    (tickPipes dt rv g).1.length = g.pipes.length := by
  unfold tickPipes
  rw [updatePipes_length, spawnStep_length]

theorem playingStep_score (dt rv : ℚ) (g : GameState) :
    (playingStep dt rv g).score = (tickPipes dt rv g).2 := by
  unfold playingStep
  rcases h : (tickCollision dt rv g).2 with _ | o
  · simp only [h]
  · cases o
    · simp only [h, scoreCheckState_score]
    · simp only [h]

theorem playingStep_pipes (dt rv : ℚ) (g : GameState) :
    (playingStep dt rv g).pipes = (tickPipes dt rv g).1 := by
  unfold playingStep
  rcases h : (tickCollision dt rv g).2 with _ | o
  · simp only [h]
  · cases o
    · simp only [h, scoreCheckState_pipes]
    · simp only [h]

theorem playingStep_bird (dt rv : ℚ) (g : GameState) :
    (playingStep dt rv g).bird = (tickCollision dt rv g).1 := by
  unfold playingStep
  rcases h : (tickCollision dt rv g).2 with _ | o
  · simp only [h]
  · cases o
    · simp only [h, scoreCheckState_bird]
    · simp only [h]

theorem fallingStep_score (dt : ℚ) (g : GameState) :
    (fallingStep dt g).score = g.score := by
  unfold fallingStep
  dsimp only
  split
  · simp only [scoreCheckState_score]
  · rfl

theorem fallingStep_pipes (dt : ℚ) (g : GameState) :
    (fallingStep dt g).pipes = g.pipes := by
  unfold fallingStep
  dsimp only
  split
  · simp only [scoreCheckState_pipes]
  · rfl

theorem fallingStep_pipeTimer (dt : ℚ) (g : GameState) :
    (fallingStep dt g).pipeTimer = g.pipeTimer := by
  unfold fallingStep
  dsimp only
  split
  · unfold scoreCheckState
    split <;> rfl
  · rfl

theorem updateGame_ready (dt rv hover : ℚ) (g : GameState) (h : g.state = GState.ready) :
    updateGame dt rv hover g = { g with bird := { g.bird with y := 280 + hover * 12 } } := by
  unfold updateGame
  rw [h]

theorem updateGame_playing (dt rv hover : ℚ) (g : GameState) (h : g.state = GState.playing) :
    updateGame dt rv hover g = playingStep dt rv g := by
  unfold updateGame
  rw [h]

theorem updateGame_falling (dt rv hover : ℚ) (g : GameState) (h : g.state = GState.falling) :
    updateGame dt rv hover g = fallingStep dt g := by
  unfold updateGame
  rw [h]

theorem updateGame_gameover (dt rv hover : ℚ) (g : GameState) (h : g.state = GState.gameover) :
    updateGame dt rv hover g = { g with stateTime := g.stateTime + dt } := by
  unfold updateGame
  rw [h]

theorem updateGame_paused (dt rv hover : ℚ) (g : GameState) (h : g.state = GState.paused) :
    updateGame dt rv hover g = g := by
  unfold updateGame
  rw [h]

theorem updateGame_score_mono (dt rv hover : ℚ) (g : GameState) :
    g.score ≤ (updateGame dt rv hover g).score := by
  rcases h : g.state
  · rw [updateGame_ready dt rv hover g h]
  · rw [updateGame_playing dt rv hover g h, playingStep_score]
    exact updatePipes_score_le _ _ _ _
  · rw [updateGame_falling dt rv hover g h, fallingStep_score]
  · rw [updateGame_gameover dt rv hover g h]
  · rw [updateGame_paused dt rv hover g h]

theorem runTicks_score_mono (l : List (ℚ × ℚ × ℚ)) (g : GameState) :
    g.score ≤ (runTicks l g).score := by
  induction l generalizing g with
  | nil => exact le_refl _
  | cons t ts ih =>
    exact le_trans (updateGame_score_mono t.1 t.2.1 t.2.2 g) (ih _)

theorem updateGame_pipes_length (dt rv hover : ℚ) (g : GameState) :
    (updateGame dt rv hover g).pipes.length = g.pipes.length := by
  rcases h : g.state
  · rw [updateGame_ready dt rv hover g h]
  · rw [updateGame_playing dt rv hover g h, playingStep_pipes, tickPipes_length]
  · rw [updateGame_falling dt rv hover g h, fallingStep_pipes]
  · rw [updateGame_gameover dt rv hover g h]
  · rw [updateGame_paused dt rv hover g h]

theorem handleInput_pipes_length (now : ℚ) (g : GameState) :
    (handleInput now g).pipes.length = g.pipes.length := by
  unfold handleInput
  split
  · rfl
  · rcases g.state
    · rfl
    · rfl
    · rfl
    · dsimp only
      split
      · simp only [resetGame, List.length_map]
      · rfl
    · rfl

theorem checkCollision_ceiling (b : Bird) (ps : List Pipe)
    (hg : b.y + BIRD_H / 2 < GROUND_Y) (hc : b.y - BIRD_H / 2 < 0) :
    (checkCollision b ps).1 = { b with y := BIRD_H / 2, vy := 0 } ∧
    ((checkCollision b ps).2 = none ∨ (checkCollision b ps).2 = some Outcome.pipe) ∧
    (anyPipeHit { b with y := BIRD_H / 2, vy := 0 } ps = false →
      (checkCollision b ps).2 = none) := by
  unfold checkCollision
  rw [if_neg (not_le.mpr hg)]
  dsimp only
  rw [if_pos hc]
  refine ⟨by split <;> rfl, by split <;> simp, ?_⟩
  intro ha
  rw [if_neg (by simp [ha])]

theorem updateGame_vy_le (dt rv hover : ℚ) (g : GameState)
    (h : g.state = GState.playing ∨ g.state = GState.falling) :
    (updateGame dt rv hover g).bird.vy ≤ MAX_FALL_SPEED := by
  rcases h with h | h
  · rw [updateGame_playing dt rv hover g h, playingStep_bird]
    unfold tickCollision
    rcases checkCollision_vy (integrate dt g.bird) (tickPipes dt rv g).1 with hv | hv
    · rw [hv]
      exact integrate_vy_le dt g.bird
    · rw [hv]
      norm_num [MAX_FALL_SPEED]
  · rw [updateGame_falling dt rv hover g h]
    unfold fallingStep
    dsimp only
    split
    · simp only [scoreCheckState_bird]
      exact integrate_vy_le dt g.bird
    · exact integrate_vy_le dt g.bird

theorem updateGame_y_nonneg (dt rv hover : ℚ) (g : GameState)
    (h : g.state = GState.playing) :
    0 ≤ (updateGame dt rv hover g).bird.y := by
  rw [updateGame_playing dt rv hover g h, playingStep_bird]
  unfold tickCollision
  exact checkCollision_y_nonneg _ _

theorem fallingStep_bird_vy (dt : ℚ) (g : GameState) :
    (fallingStep dt g).bird.vy = (integrate dt g.bird).vy := by
  unfold fallingStep
  dsimp only
  split
  · simp only [scoreCheckState_bird]
  · rfl

/-! ### Claim theorems -/

/-- C1: the scoring rule of the playing tick (lines 756-760) increments the
score by exactly 1 and sets `scored` the moment an active pipe's trailing
edge (`p.x + PIPE_W`) has passed the bird's x; on a pipe that is already
`scored` — or whose trailing edge has not passed — it changes nothing, so
re-evaluating the rule on the same unchanged state never double-increments
(idempotence); and across any sequence of `updateGame` ticks, with no
restart in between, the score is monotonically non-decreasing. -/
theorem c1_score_once_gated_monotone (birdX : ℚ) (p : Pipe) (sc : ℕ)
    (l : List (ℚ × ℚ × ℚ)) (g : GameState) :
    (p.scored = false ∧ p.x + PIPE_W < birdX →
      (scoreGate birdX p sc).2 = sc + 1 ∧ (scoreGate birdX p sc).1.scored = true) ∧
    (¬(p.scored = false ∧ p.x + PIPE_W < birdX) → scoreGate birdX p sc = (p, sc)) ∧
    scoreGate birdX (scoreGate birdX p sc).1 (scoreGate birdX p sc).2 = scoreGate birdX p sc ∧
    g.score ≤ (runTicks l g).score := by
  refine ⟨?_, ?_, ?_, runTicks_score_mono l g⟩
  · intro h
    unfold scoreGate
    rw [if_pos h]
    exact ⟨rfl, rfl⟩
  · intro h
    unfold scoreGate
    rw [if_neg h]
  · by_cases h : p.scored = false ∧ p.x + PIPE_W < birdX
    · simp [scoreGate, h]
    · simp [scoreGate, h]

theorem c1_witness :
    (scoreGate 80 { x := 5, gapY := 300, active := true, scored := false } 0).2 = 0 + 1 ∧
    g0.score ≤ (runTicks [((1 : ℚ)/60, 0, 0)] g0).score :=
  ⟨((c1_score_once_gated_monotone 80 { x := 5, gapY := 300, active := true, scored := false } 0
      [((1 : ℚ)/60, 0, 0)] g0).1 (by norm_num [PIPE_W])).1,
    (c1_score_once_gated_monotone 80 { x := 5, gapY := 300, active := true, scored := false } 0
      [((1 : ℚ)/60, 0, 0)] g0).2.2.2⟩

/-- C2 counterexample: a concrete playing tick whose collision outcome is
`ground` and which nevertheless increments the score — in `gC2` the bird
reaches the ground on the very tick in which the active pipe's trailing edge
passes the bird's x, and the source (lines 749-766 before line 769) marks
the pipe scored and increments the score before `checkCollision` runs, so
the final state is `gameover` with score `0 + 1`.  This contradicts the
claim that no score increment happens on a tick whose outcome is `Pipe` or
`Ground`. -/
theorem c2_scores_on_collision_tick_cex :
    (updateGame (1/60) 0 0 gC2).state = GState.gameover ∧
    (updateGame (1/60) 0 0 gC2).score = gC2.score + 1 := by
  norm_num [gC2, g0, inactiveSlot, updateGame, playingStep, tickPipes, tickCollision, spawnStep,
    spawnPipe, integrate, updatePipes, updatePipe, movePipe, scoreGate, despawnGate,
    checkCollision, anyPipeHit, pipeHit, scoreCheckState, List.replicate,
    GROUND_Y, LOGICAL_H, GROUND_H, LOGICAL_W, GRAVITY, MAX_FALL_SPEED, PIPE_W, PIPE_GAP,
    PIPE_SPEED, PIPE_SPAWN_INTERVAL, BIRD_W, BIRD_H]

/-- C2 (amended): scoring is evaluated inside the pipe-advance pass, before
the ground and pipe intersection checks of the same tick; the tick's final
score is exactly the score computed by that pass, whatever the collision
outcome turns out to be, so a tick whose outcome is `Pipe` or `Ground` can
still mark obstacles scored and increment the score. -/
theorem c2_score_settled_before_collision (dt rv hover : ℚ) (g : GameState)
    (h : g.state = GState.playing) :
    (updateGame dt rv hover g).score = (tickPipes dt rv g).2 := by
  rw [updateGame_playing dt rv hover g h, playingStep_score]

theorem c2_witness :
    (updateGame (1/60) 0 0 gC2).score = (tickPipes (1/60) 0 gC2).2 :=
  c2_score_settled_before_collision (1/60) 0 0 gC2 rfl

/-- C3: a `pipe` outcome of the playing tick's collision rule sends the
machine to `falling`; every `falling` tick leaves the pool (and the spawn
timer) untouched while the bird keeps integrating under gravity with the
clamped-velocity formula; the tick moves to `gameover` exactly when the
integrated bird reaches the ground, and otherwise stays in `falling` with
the integrated position; and `activate()` in `falling` is a complete no-op
(no impulse, no phase change). -/
theorem c3_pipe_falling_freeze (dt rv hover now : ℚ) (g : GameState) :
    (g.state = GState.playing → (tickCollision dt rv g).2 = some Outcome.pipe →
      (updateGame dt rv hover g).state = GState.falling) ∧
    (g.state = GState.falling →
      (updateGame dt rv hover g).pipes = g.pipes ∧
      (updateGame dt rv hover g).pipeTimer = g.pipeTimer ∧
      (updateGame dt rv hover g).bird.vy = min (g.bird.vy + GRAVITY * dt) MAX_FALL_SPEED ∧
      ((integrate dt g.bird).y + BIRD_H / 2 ≥ GROUND_Y →
        (updateGame dt rv hover g).state = GState.gameover) ∧
      (¬((integrate dt g.bird).y + BIRD_H / 2 ≥ GROUND_Y) →
        (updateGame dt rv hover g).state = GState.falling ∧
        (updateGame dt rv hover g).bird.y = (integrate dt g.bird).y) ∧
      handleInput now g = g) := by
  constructor
  · intro h hco
    rw [updateGame_playing dt rv hover g h]
    unfold playingStep
    simp only [hco]
  · intro h
    rw [updateGame_falling dt rv hover g h]
    refine ⟨fallingStep_pipes dt g, fallingStep_pipeTimer dt g, ?_, ?_, ?_, ?_⟩
    · rw [fallingStep_bird_vy, integrate_vy]
    · intro hgd
      unfold fallingStep
      dsimp only
      rw [if_pos hgd]
    · intro hng
      unfold fallingStep
      dsimp only
      rw [if_neg hng]
      exact ⟨h, rfl⟩
    · unfold handleInput
      split
      · rfl
      · simp only [h]

theorem c3_witness :
    (updateGame (1/60) 0 0 gPipeHit).state = GState.falling ∧
    (updateGame (1/60) 0 0 gFall).pipes = gFall.pipes ∧
    handleInput 0 gFall = gFall ∧
    (updateGame (1/60) 0 0 gFall2).state = GState.gameover := by
  refine ⟨(c3_pipe_falling_freeze (1/60) 0 0 0 gPipeHit).1 rfl
      (by norm_num [gPipeHit, g0, inactiveSlot, tickCollision, tickPipes, spawnStep,
        spawnPipe, integrate, updatePipes, updatePipe, movePipe, scoreGate, despawnGate,
        checkCollision, anyPipeHit, pipeHit, List.replicate,
        GROUND_Y, LOGICAL_H, GROUND_H, LOGICAL_W, GRAVITY, MAX_FALL_SPEED, PIPE_W, PIPE_GAP,
        PIPE_SPEED, PIPE_SPAWN_INTERVAL, BIRD_W, BIRD_H]),
    ((c3_pipe_falling_freeze (1/60) 0 0 0 gFall).2 rfl).1,
    ((c3_pipe_falling_freeze (1/60) 0 0 0 gFall).2 rfl).2.2.2.2.2,
    ((c3_pipe_falling_freeze (1/60) 0 0 0 gFall2).2 rfl).2.2.2.1
      (by norm_num [gFall2, g0, integrate, GRAVITY, MAX_FALL_SPEED, BIRD_H,
        GROUND_Y, LOGICAL_H, GROUND_H])⟩

/-- C4 counterexample: with dwell time exactly at the threshold
(`stateTime = 0.5`), an unlocked `activate()` is ignored — the phase stays
`gameover` and the score stays 3 — because line 824 tests `stateTime > 0.5`
strictly; the claim says reaching the minimum dwell already triggers the
reset to `Ready` with score 0. -/
theorem c4_dwell_boundary_cex :
    gC4.state = GState.gameover ∧ gC4.stateTime = 1 / 2 ∧ gC4.inputLockUntil ≤ 1000 ∧
    (handleInput 1000 gC4).state = GState.gameover ∧
    (handleInput 1000 gC4).score = 3 ∧
    ¬((handleInput 1000 gC4).state = GState.ready) := by
  norm_num [gC4, g0, inactiveSlot, handleInput]
  decide

/-- C4 (amended): in the `gameover` phase an unlocked `activate()` is a
complete no-op while the dwell time is at most the minimum dwell (0.5 s),
and once the dwell time strictly exceeds it, `activate()` resets the score
to 0, deactivates every pool slot, transitions to `ready` and arms a 300 ms
input lock. -/
theorem c4_restart_debounce (now : ℚ) (g : GameState)
    (hst : g.state = GState.gameover) (hlock : g.inputLockUntil ≤ now) :
    (g.stateTime ≤ 1 / 2 → handleInput now g = g) ∧
    (1 / 2 < g.stateTime →
      (handleInput now g).state = GState.ready ∧
      (handleInput now g).score = 0 ∧
      (∀ p ∈ (handleInput now g).pipes, p.active = false) ∧
      (handleInput now g).inputLockUntil = now + 300) := by
  unfold handleInput
  rw [if_neg (not_lt.mpr hlock)]
  constructor
  · intro h
    simp only [hst]
    rw [if_neg (not_lt.mpr h)]
  · intro h
    simp only [hst]
    rw [if_pos h]
    refine ⟨rfl, rfl, ?_, rfl⟩
    intro p hp
    simp only [resetGame, List.mem_map] at hp
    obtain ⟨q, _, rfl⟩ := hp
    rfl

theorem c4_witness :
    handleInput 1000 gC4 = gC4 ∧
    (handleInput 1000 gC4b).state = GState.ready ∧
    (handleInput 1000 gC4b).score = 0 :=
  ⟨(c4_restart_debounce 1000 gC4 rfl (by norm_num [gC4, g0])).1 (by norm_num [gC4, g0]),
    ((c4_restart_debounce 1000 gC4b rfl (by norm_num [gC4b, g0])).2
      (by norm_num [gC4b, g0])).1,
    ((c4_restart_debounce 1000 gC4b rfl (by norm_num [gC4b, g0])).2
      (by norm_num [gC4b, g0])).2.1⟩

/-- C5: the pool keeps exactly its `POOL_SIZE` slots forever — `spawnPipe`,
the pipe-update pass, every `updateGame` tick and every `handleInput` call
preserve the number of slots, the number of active slots can never exceed
the slot count, and a spawn attempt made while every slot is active
returns the pool completely unchanged. -/
theorem c5_pool_fixed_size (rv dt bx hover now : ℚ) (ps : List Pipe) (sc : ℕ)
    (g : GameState) :
    (spawnPipe rv ps).length = ps.length ∧
    (updatePipes dt bx ps sc).1.length = ps.length ∧
    countActive ps ≤ ps.length ∧
    ((∀ p ∈ ps, p.active = true) → spawnPipe rv ps = ps) ∧
    (updateGame dt rv hover g).pipes.length = g.pipes.length ∧
    (handleInput now g).pipes.length = g.pipes.length := by
  refine ⟨spawnPipe_length rv ps, updatePipes_length dt bx ps sc, ?_,
    spawnPipe_all_active rv ps, updateGame_pipes_length dt rv hover g,
    handleInput_pipes_length now g⟩
  unfold countActive
  exact List.length_filter_le _ ps

theorem c5_witness :
    spawnPipe (1/2) fullPool = fullPool ∧ countActive fullPool ≤ fullPool.length := by
  refine ⟨(c5_pool_fixed_size (1/2) (1/60) 80 0 0 fullPool 0 g0).2.2.2.1 ?_,
    (c5_pool_fixed_size (1/2) (1/60) 80 0 0 fullPool 0 g0).2.2.1⟩
  intro p hp
  simp only [fullPool, List.mem_replicate] at hp
  rw [hp.2]

/-- C6: every slot of the pool after a spawn attempt with random draw
`r ∈ [0, 1)` is either an unchanged old slot or the freshly spawned one,
and the fresh slot sits at `x = LOGICAL_W + 20` (strictly beyond the right
edge of the 400-wide playfield), has its `scored` flag clear, is active,
and has `gapCenter` inside `[180, 440]` = `[marginTop + gapHeight/2,
groundY - marginBottom - gapHeight/2]` for `gapHeight = 160`,
`marginTop = 100`, `marginBottom = 80`, `groundY = 600`. -/
theorem c6_spawn_gap_bounds (rv : ℚ) (h0 : 0 ≤ rv) (h1 : rv < 1)
    (ps : List Pipe) (q : Pipe) (hq : q ∈ spawnPipe rv ps) :
    q ∈ ps ∨
      (q.x = LOGICAL_W + 20 ∧ LOGICAL_W < q.x ∧ q.active = true ∧ q.scored = false ∧
        180 ≤ q.gapY ∧ q.gapY ≤ 440) := by
  rcases spawnPipe_mem rv ps q hq with h | h
  · exact Or.inl h
  · right
    subst h
    refine ⟨rfl, by norm_num [LOGICAL_W], rfl, rfl, ?_, ?_⟩
    · show (180 : ℚ) ≤ (100 + PIPE_GAP / 2) +
        rv * ((GROUND_Y - 80 - PIPE_GAP / 2) - (100 + PIPE_GAP / 2))
      norm_num [PIPE_GAP, GROUND_Y, LOGICAL_H, GROUND_H]
      nlinarith
    · show (100 + PIPE_GAP / 2) +
        rv * ((GROUND_Y - 80 - PIPE_GAP / 2) - (100 + PIPE_GAP / 2)) ≤ (440 : ℚ)
      norm_num [PIPE_GAP, GROUND_Y, LOGICAL_H, GROUND_H]
      nlinarith

theorem c6_witness :
    ({ x := 420, gapY := 310, active := true, scored := false } : Pipe) ∈ [inactiveSlot] ∨
      (({ x := 420, gapY := 310, active := true, scored := false } : Pipe).x = LOGICAL_W + 20 ∧
        LOGICAL_W < ({ x := 420, gapY := 310, active := true, scored := false } : Pipe).x ∧
        ({ x := 420, gapY := 310, active := true, scored := false } : Pipe).active = true ∧
        ({ x := 420, gapY := 310, active := true, scored := false } : Pipe).scored = false ∧
        180 ≤ ({ x := 420, gapY := 310, active := true, scored := false } : Pipe).gapY ∧
        ({ x := 420, gapY := 310, active := true, scored := false } : Pipe).gapY ≤ 440) :=
  c6_spawn_gap_bounds (1/2) (by norm_num) (by norm_num) [inactiveSlot]
    { x := 420, gapY := 310, active := true, scored := false }
    (by norm_num [spawnPipe, inactiveSlot, LOGICAL_W, PIPE_GAP, GROUND_Y, LOGICAL_H, GROUND_H])

/-- C7: one physics integration step computes exactly
`vy' = min(vy + GRAVITY * dt, MAX_FALL_SPEED)` followed by
`y' = y + vy' * dt` (the clamped velocity feeds the position update), so the
integrated velocity never exceeds `MAX_FALL_SPEED`; and after any playing or
falling tick of `updateGame` the bird's velocity is at most
`MAX_FALL_SPEED`. -/
theorem c7_integrate_exact (dt rv hover : ℚ) (b : Bird) (g : GameState) :
    (integrate dt b).vy = min (b.vy + GRAVITY * dt) MAX_FALL_SPEED ∧
    (integrate dt b).y = b.y + (integrate dt b).vy * dt ∧
    (integrate dt b).x = b.x ∧
    (integrate dt b).vy ≤ MAX_FALL_SPEED ∧
    (g.state = GState.playing ∨ g.state = GState.falling →
      (updateGame dt rv hover g).bird.vy ≤ MAX_FALL_SPEED) :=
  ⟨integrate_vy dt b, integrate_y dt b, integrate_x dt b, integrate_vy_le dt b,
    fun h => updateGame_vy_le dt rv hover g h⟩

theorem c7_witness :
    (updateGame (1/60) 0 0 gPlay).bird.vy ≤ MAX_FALL_SPEED :=
  (c7_integrate_exact (1/60) 0 0 gPlay.bird gPlay).2.2.2.2 (Or.inl rfl)

/-- C8 counterexample: `birdC8` is above the top boundary while moving
downward — back into the playfield — with `vy = 30 > 0`; the ceiling rule of
`checkCollision` (lines 626-629) nevertheless zeroes the velocity
(`bird.vy = 0` is unconditional), so the inward-directed velocity is not
left intact as the claim states. -/
theorem c8_ceiling_zeroes_inward_cex :
    birdC8.vy = 30 ∧ 0 < birdC8.vy ∧ birdC8.y - BIRD_H / 2 < 0 ∧
    birdC8.y + BIRD_H / 2 < GROUND_Y ∧
    (checkCollision birdC8 []).1.vy = 0 ∧
    ¬((checkCollision birdC8 []).1.vy = birdC8.vy) ∧
    (checkCollision birdC8 []).1.y = BIRD_H / 2 := by
  norm_num [birdC8, checkCollision, anyPipeHit, BIRD_H, GROUND_Y, LOGICAL_H, GROUND_H]

/-- C8 (amended): whenever the bird's position would leave the top boundary
(and ground contact has not occurred that tick), `checkCollision` clamps
`position.y` back to the boundary and zeroes the vertical velocity entirely
— regardless of whether it pushes outward or inward; the clamp itself
produces no outcome (the tick reports `none` unless some pipe intersection
is found), and after every playing tick `position.y ≥ 0`. -/
theorem c8_ceiling_clamp (b : Bird) (ps : List Pipe) (dt rv hover : ℚ)
    (g : GameState) :
    (b.y + BIRD_H / 2 < GROUND_Y → b.y - BIRD_H / 2 < 0 →
      (checkCollision b ps).1.y = BIRD_H / 2 ∧
      (checkCollision b ps).1.vy = 0 ∧
      (anyPipeHit { b with y := BIRD_H / 2, vy := 0 } ps = false →
        (checkCollision b ps).2 = none)) ∧
    (g.state = GState.playing → 0 ≤ (updateGame dt rv hover g).bird.y) := by
  constructor
  · intro hg hc
    obtain ⟨h1, h2, h3⟩ := checkCollision_ceiling b ps hg hc
    exact ⟨by rw [h1], by rw [h1], h3⟩
  · exact updateGame_y_nonneg dt rv hover g

theorem c8_witness :
    (checkCollision birdC8 []).1.y = BIRD_H / 2 ∧
    0 ≤ (updateGame (1/60) 0 0 gPlay).bird.y :=
  ⟨((c8_ceiling_clamp birdC8 [] (1/60) 0 0 gPlay).1
      (by norm_num [birdC8, BIRD_H, GROUND_Y, LOGICAL_H, GROUND_H])
      (by norm_num [birdC8, BIRD_H])).1,
    (c8_ceiling_clamp birdC8 [] (1/60) 0 0 gPlay).2 rfl⟩

/-- C9: any `activate()` arriving while `now < inputLockUntil` is a complete
no-op on the game state; the deadline is armed `now + 100` (ms) when `ready`
transitions to `playing`, and `now + 300` when an unlocked post-dwell
restart transitions `gameover` to `ready`. -/
theorem c9_input_lock (now : ℚ) (g : GameState) :
    (now < g.inputLockUntil → handleInput now g = g) ∧
    (g.inputLockUntil ≤ now → g.state = GState.ready →
      (handleInput now g).inputLockUntil = now + 100 ∧
      (handleInput now g).state = GState.playing) ∧
    (g.inputLockUntil ≤ now → g.state = GState.gameover → 1 / 2 < g.stateTime →
      (handleInput now g).inputLockUntil = now + 300 ∧
      (handleInput now g).state = GState.ready) := by
  refine ⟨?_, ?_, ?_⟩
  · intro h
    unfold handleInput
    rw [if_pos h]
  · intro hl hst
    unfold handleInput
    rw [if_neg (not_lt.mpr hl)]
    simp [hst]
  · intro hl hst hdw
    unfold handleInput
    rw [if_neg (not_lt.mpr hl)]
    simp only [hst]
    rw [if_pos hdw]
    exact ⟨rfl, rfl⟩

theorem c9_witness :
    handleInput 50 gLock = gLock ∧
    (handleInput 200 gLock).inputLockUntil = 200 + 100 ∧
    (handleInput 1000 gC4b).inputLockUntil = 1000 + 300 :=
  ⟨(c9_input_lock 50 gLock).1 (by norm_num [gLock, g0]),
    ((c9_input_lock 200 gLock).2.1 (by norm_num [gLock, g0]) rfl).1,
    ((c9_input_lock 1000 gC4b).2.2 (by norm_num [gC4b, g0]) rfl
      (by norm_num [gC4b, g0])).1⟩

/-- C10: the high-score check returns `true` and writes `highScore := score`
exactly when the round's score strictly exceeds the current high score, and
otherwise returns `false` leaving the whole state unchanged; hence
`highScore` is monotonically non-decreasing under the check, and the check
never affects the round's score, phase or pool. -/
theorem c10_highscore_check (g : GameState) :
    ((scoreCheckState g).2 = true ↔ g.highScore < g.score) ∧
    (g.highScore < g.score →
      (scoreCheckState g).1.highScore = g.score ∧
      (scoreCheckState g).1.isNewHighScore = true) ∧
    (g.score ≤ g.highScore →
      (scoreCheckState g).2 = false ∧ (scoreCheckState g).1 = g) ∧
    g.highScore ≤ (scoreCheckState g).1.highScore ∧
    (scoreCheckState g).1.score = g.score ∧
    (scoreCheckState g).1.state = g.state ∧
    (scoreCheckState g).1.pipes = g.pipes := by
  refine ⟨?_, ?_, ?_, scoreCheckState_highScore_mono g, scoreCheckState_score g,
    scoreCheckState_state g, scoreCheckState_pipes g⟩
  · unfold scoreCheckState
    by_cases h : g.score > g.highScore
    · simp [h]
    · simp [h]
  · intro h
    unfold scoreCheckState
    rw [if_pos h]
    exact ⟨rfl, rfl⟩
  · intro h
    unfold scoreCheckState
    rw [if_neg (not_lt.mpr h)]
    exact ⟨rfl, rfl⟩

theorem c10_witness :
    (scoreCheckState gC4).2 = true ∧
    (scoreCheckState gC4).1.highScore = gC4.score ∧
    (scoreCheckState gLock).2 = false :=
  ⟨((c10_highscore_check gC4).1).mpr (by norm_num [gC4, g0]),
    ((c10_highscore_check gC4).2.1 (by norm_num [gC4, g0])).1,
    ((c10_highscore_check gLock).2.2.1 (by norm_num [gLock, g0])).1⟩
